import Mathlib

/-!
Shallow embedding of the predicate/overlay dispatch layer of the jsts
`Geometry` base class (`src/unnamed/part_000`, the abstract
`jsts.geom.Geometry` prototype) and of the `GeometryFactory` stub
(`src/src/jsts/geom/GeometryFactory.js`).

Modelling conventions:
* JS numbers are modelled as `Int` (only ordering and equality of
  coordinates matter to the claims under verification).
* A thrown JS exception is modelled as `Except.error` carrying a `JsErr`;
  the three kinds that actually arise in this file are a thrown
  `new Error(msg)`, a `TypeError` from calling a property that is
  `undefined`, and a `ReferenceError` from reading an unbound identifier.
* Object identity is modelled by an `oid : Nat` field on geometries and a
  `fid : Nat` field on factories: two values with the same `oid`/`fid`
  model the same heap object.  Operations that allocate a new object take
  the identity of the allocation as an explicit `fresh : Nat` argument.
* The concrete variant classes (Point, …, GeometryCollection) are not under
  `src/`; their capability set (`isEmpty`, `getDimension`, `isRectangle`,
  `computeEnvelopeInternal`, the vertex sequence) is modelled from the spec
  as per-geometry data fields.
* The external algorithm services (`RelateOp`, `SnapIfNeededOverlayOp`,
  `UnaryUnionOp`, `RectangleIntersects`, `RectangleContains`) are black
  boxes per the spec; they are modelled as a `Services` record of abstract
  functions, and every operation additionally reports (in a `Calls` record)
  which services it actually invoked.
-/

namespace Jsts

/-- Modelled from the spec: a 2-D vertex (`jsts.geom.Coordinate`,
an external leaf value type not under `src/`). -/
structure Coordinate where
  x : Int
  y : Int
deriving DecidableEq, Repr

/-- Modelled from the spec: `Envelope`, the axis-aligned bounding box leaf
value type (not under `src/`).  A "null" envelope (the envelope of an empty
geometry) is modelled as `none : Option Envelope`. -/
structure Envelope where
  minx : Int
  maxx : Int
  miny : Int
  maxy : Int
deriving DecidableEq, Repr

/-- Modelled from the spec: `Envelope.intersects` — every query on a null
envelope returns false. -/
def envIntersects : Option Envelope → Option Envelope → Bool
  | some e, some f =>
      !(f.minx > e.maxx || f.maxx < e.minx || f.miny > e.maxy || f.maxy < e.miny)
  | _, _ => false

/-- Modelled from the spec: `Envelope.covers`/`Envelope.contains` (the two
coincide on envelopes) — every query on a null envelope returns false. -/
def envCovers : Option Envelope → Option Envelope → Bool
  | some e, some f =>
      f.minx ≥ e.minx && f.maxx ≤ e.maxx && f.miny ≥ e.miny && f.maxy ≤ e.maxy
  | _, _ => false

/-- The concrete variant taxonomy of the spec, plus `abstractBase` for an
object built by `new jsts.geom.Geometry(factory)` itself (the base `clone`
at line 1261 constructs exactly such an object). -/
inductive GeomKind
  | point
  | multiPoint
  | lineString
  | linearRing
  | multiLineString
  | polygon
  | multiPolygon
  | geometryCollection
  | abstractBase
deriving DecidableEq, Repr

/-- Modelled from the spec: `getClassSortIndex` (called by `compareTo` at
line 1315 but defined nowhere under `src/`), following the fixed variant
order of spec §3: Point < MultiPoint < LineString < LinearRing <
MultiLineString < Polygon < MultiPolygon < GeometryCollection.  The value
on the abstract base is immaterial to every theorem below. -/
def classSortIndex : GeomKind → Int
  | .point => 0
  | .multiPoint => 1
  | .lineString => 2
  | .linearRing => 3
  | .multiLineString => 4
  | .polygon => 5
  | .multiPolygon => 6
  | .geometryCollection => 7
  | .abstractBase => 8

/-- `jsts.geom.GeometryFactory` (`src/src/jsts/geom/GeometryFactory.js`):
the factory carries an SRID (`prototype.SRID`, read by `getSRID`).  `fid`
models the factory object's identity (factories are shared by reference). -/
structure GeometryFactory where
  fid : Nat
  SRID : Int
deriving DecidableEq, Repr

/-- The state of a `jsts.geom.Geometry` object.  `factory`, `SRID` and the
mutable cache slot `envelope` are the base-class fields (source lines
93-115).  The remaining fields model the per-variant capability set
(`isEmpty`, `getDimension`, `isRectangle`, the vertex sequence, and the
result of `computeEnvelopeInternal`), which lives in the concrete variant
classes not under `src/` and is modelled from the spec: `env` is the true
bounding box of the geometry (`none` for an empty geometry). -/
structure Geometry where
  oid : Nat
  kind : GeomKind
  empty : Bool
  dim : Int
  coords : List Coordinate
  rect : Bool
  env : Option Envelope
  envelope : Option Envelope
  factory : GeometryFactory
  SRID : Int
deriving DecidableEq, Repr

/-- The constructor (source lines 93-96): stores the factory reference and
copies the SRID from it; all other fields are the prototype defaults
(`envelope = null`, base `isEmpty()` returns true, base `getDimension()`
returns 0). -/
def mkGeometry (oid : Nat) (factory : GeometryFactory) : Geometry :=
  { oid := oid
    kind := .abstractBase
    empty := true
    dim := 0
    coords := []
    rect := false
    env := none
    envelope := none
    factory := factory
    SRID := factory.SRID }

/-- JS exceptions thrown by the code under verification. -/
inductive JsErr
  | error (msg : String)
  | typeError (msg : String)
  | referenceError (name : String)
deriving DecidableEq, Repr

/-- `g instanceof jsts.geom.GeometryCollection` (the test used by
`checkNotGeometryCollection` at line 1393 and `isGeometryCollection` at
line 1403), modelled on the variant kind. -/
def isGeometryCollectionInst (g : Geometry) : Bool :=
  g.kind == GeomKind.geometryCollection

/-- `checkNotGeometryCollection` (source lines 1392-1396): throws
`new Error('This method does not support GeometryCollection')` if the
argument is a GeometryCollection. -/
def checkNotGeometryCollection (g : Geometry) : Except JsErr Unit :=
  if isGeometryCollectionInst g then
    Except.error (JsErr.error "This method does not support GeometryCollection")
  else
    Except.ok ()

/-- Modelled from the spec: `GeometryFactory.createGeometryCollection(null)`
(called by `intersection`/`difference` but absent from `src/`) builds an
empty GeometryCollection in the given factory's context. -/
def createGeometryCollection (f : GeometryFactory) (fresh : Nat) : Geometry :=
  { oid := fresh
    kind := .geometryCollection
    empty := true
    dim := 0
    coords := []
    rect := false
    env := none
    envelope := none
    factory := f
    SRID := f.SRID }

/-- The base `clone` (source lines 1261-1267), faithfully:
`var clone = new jsts.geom.Geometry(this.factory);` then
`if (clone.envelope !== null) clone.envelope = new Envelope(clone.envelope);`
— the condition reads the freshly constructed object's slot, not the
source's. -/
def cloneBase (g : Geometry) (fresh : Nat) : Geometry :=
  let c := mkGeometry fresh g.factory
  if c.envelope ≠ none then { c with envelope := c.envelope } else c

/-- Modelled from the spec: the dispatched `clone` on a concrete variant.
The variant overrides (not under `src/`) "call this method first" (the base
`clone`, which shares the factory, re-reads the SRID from it and leaves the
envelope cache slot null) and then copy their internal coordinate data, so
the result is a full copy of the variant data under a fresh identity with
an unset envelope cache. -/
def cloneFull (g : Geometry) (fresh : Nat) : Geometry :=
  { g with oid := fresh, SRID := g.factory.SRID, envelope := none }

/-- Modelled from the spec: the per-variant `computeEnvelopeInternal`
(the base at line 1419 returns null; the variant overrides compute the true
bounding box, null for an empty geometry). -/
def computeEnvelopeInternal (g : Geometry) : Option Envelope :=
  g.env

/-- `getEnvelopeInternal` (source lines 512-517), faithfully:
`if (this.envelope === null) this.envelope = this.computeEnvelopeInternal();`
then `return envelope;` — the returned identifier is the bare name
`envelope`, which is bound nowhere in scope (the field is `this.envelope`),
so the read raises a ReferenceError after the cache slot has been filled. -/
def getEnvelopeInternal (g : Geometry) : Except JsErr Envelope × Geometry :=
  let g' := if g.envelope = none then { g with envelope := computeEnvelopeInternal g } else g
  (Except.error (JsErr.referenceError "envelope"), g')

/-- The expression `this.getEnvelopeInternal().intersects(g.getEnvelopeInternal())`
as the predicates evaluate it: the receiver's accessor call runs first and
its exception propagates — given the line-516 slip this is what every call
does; the argument's accessor call and the `Envelope.intersects` query are
the (unreachable) success path. -/
def envIntersectsCall (a g : Geometry) : Except JsErr Bool :=
  match (getEnvelopeInternal a).1 with
  | Except.error e => Except.error e
  | Except.ok ea =>
    match (getEnvelopeInternal g).1 with
    | Except.error e => Except.error e
    | Except.ok eg => Except.ok (envIntersects (some ea) (some eg))

/-- The expression `this.getEnvelopeInternal().contains/covers(g.getEnvelopeInternal())`
used by `contains` and `covers`, evaluated like `envIntersectsCall`. -/
def envCoversCall (a g : Geometry) : Except JsErr Bool :=
  match (getEnvelopeInternal a).1 with
  | Except.error e => Except.error e
  | Except.ok ea =>
    match (getEnvelopeInternal g).1 with
    | Except.error e => Except.error e
    | Except.ok eg => Except.ok (envCovers (some ea) (some eg))

/-- Modelled from the spec: the DE-9IM `IntersectionMatrix` consumed
contract — immutable once produced by the relate service, queried by the
fixed named predicates, the dimension-dependent ones taking the two
operands' topological dimensions. -/
structure IntersectionMatrix where
  isIntersects : Bool
  isContains : Bool
  isCovers : Bool
  isTouches : Int → Int → Bool
  isCrosses : Int → Int → Bool
  isOverlaps : Int → Int → Bool
  isEquals : Int → Int → Bool

/-- Modelled from the spec: the external black-box services of §6 consumed
by the dispatch layer. -/
structure Services where
  relate : Geometry → Geometry → IntersectionMatrix
  overlay : Geometry → Geometry → Nat → Geometry
  unaryUnion : Geometry → Geometry
  rectangleIntersects : Geometry → Geometry → Bool
  rectangleContains : Geometry → Geometry → Bool

/-- Which external services an operation actually invoked. -/
structure Calls where
  relate : Bool
  overlay : Bool
  unaryUnion : Bool
  rectIntersects : Bool
  rectContains : Bool
deriving DecidableEq, Repr

def noCalls : Calls :=
  { relate := false, overlay := false, unaryUnion := false
    rectIntersects := false, rectContains := false }

/-- The `relate` method (source lines 883-886, the assignment that survives
the earlier two-argument form at line 867): checks both operands against
GeometryCollection and then calls the external `RelateOp.relate`.  The
boolean reports whether `RelateOp.relate` was actually invoked. -/
def relateChecked (S : Services) (a g : Geometry) :
    Except JsErr IntersectionMatrix × Bool :=
  match checkNotGeometryCollection a with
  | Except.error e => (Except.error e, false)
  | Except.ok _ =>
    match checkNotGeometryCollection g with
    | Except.error e => (Except.error e, false)
    | Except.ok _ => (Except.ok (S.relate a g), true)

/-- `touches` (source lines 568-574): the envelope short-circuit — whose
first accessor call raises on every input because of the line-516 slip —
then the matrix query with both operands' dimensions. -/
def touches (S : Services) (a g : Geometry) : Except JsErr Bool × Calls :=
  match envIntersectsCall a g with
  | Except.error e => (Except.error e, noCalls)
  | Except.ok b =>
    if !b then (Except.ok false, noCalls)
    else
      match relateChecked S a g with
      | (Except.error e, u) => (Except.error e, { noCalls with relate := u })
      | (Except.ok m, u) => (Except.ok (m.isTouches a.dim g.dim), { noCalls with relate := u })

/-- `intersects` (source lines 599-624): the envelope short-circuit — whose
first accessor call raises on every input because of the line-516 slip —
then the rectangle fast paths for either operand, then the matrix query. -/
def intersects (S : Services) (a g : Geometry) : Except JsErr Bool × Calls :=
  match envIntersectsCall a g with
  | Except.error e => (Except.error e, noCalls)
  | Except.ok b =>
    if !b then (Except.ok false, noCalls)
    else if a.rect then
      (Except.ok (S.rectangleIntersects a g), { noCalls with rectIntersects := true })
    else if g.rect then
      (Except.ok (S.rectangleIntersects g a), { noCalls with rectIntersects := true })
    else
      match relateChecked S a g with
      | (Except.error e, u) => (Except.error e, { noCalls with relate := u })
      | (Except.ok m, u) => (Except.ok m.isIntersects, { noCalls with relate := u })

/-- `disjoint` (source lines 541-543): `return !this.intersects(g);`. -/
def disjoint (S : Services) (a g : Geometry) : Except JsErr Bool × Calls :=
  let r := intersects S a g
  (r.1.map (fun b => !b), r.2)

/-- `crosses` (source lines 654-660): the envelope short-circuit — whose
first accessor call raises on every input because of the line-516 slip —
then the matrix query with both operands' dimensions. -/
def crosses (S : Services) (a g : Geometry) : Except JsErr Bool × Calls :=
  match envIntersectsCall a g with
  | Except.error e => (Except.error e, noCalls)
  | Except.ok b =>
    if !b then (Except.ok false, noCalls)
    else
      match relateChecked S a g with
      | (Except.error e, u) => (Except.error e, { noCalls with relate := u })
      | (Except.ok m, u) => (Except.ok (m.isCrosses a.dim g.dim), { noCalls with relate := u })

/-- `contains` (source lines 717-728): the envelope containment
short-circuit — whose first accessor call raises on every input because of
the line-516 slip — then the rectangle fast path for the receiver, then the
matrix query. -/
def contains (S : Services) (a g : Geometry) : Except JsErr Bool × Calls :=
  match envCoversCall a g with
  | Except.error e => (Except.error e, noCalls)
  | Except.ok b =>
    if !b then (Except.ok false, noCalls)
    else if a.rect then
      (Except.ok (S.rectangleContains a g), { noCalls with rectContains := true })
    else
      match relateChecked S a g with
      | (Except.error e, u) => (Except.error e, { noCalls with relate := u })
      | (Except.ok m, u) => (Except.ok m.isContains, { noCalls with relate := u })

/-- `within` (source lines 687-689): `return g.contains(this);`. -/
def within (S : Services) (a g : Geometry) : Except JsErr Bool × Calls :=
  contains S g a

/-- `overlaps` (source lines 754-760): the envelope short-circuit — whose
first accessor call raises on every input because of the line-516 slip —
then the matrix query with both operands' dimensions. -/
def overlaps (S : Services) (a g : Geometry) : Except JsErr Bool × Calls :=
  match envIntersectsCall a g with
  | Except.error e => (Except.error e, noCalls)
  | Except.ok b =>
    if !b then (Except.ok false, noCalls)
    else
      match relateChecked S a g with
      | (Except.error e, u) => (Except.error e, { noCalls with relate := u })
      | (Except.ok m, u) => (Except.ok (m.isOverlaps a.dim g.dim), { noCalls with relate := u })

/-- `covers` (source lines 794-805): the envelope covers short-circuit —
whose first accessor call raises on every input because of the line-516
slip — then, if the receiver is a rectangle, true unconditionally, else the
matrix query. -/
def covers (S : Services) (a g : Geometry) : Except JsErr Bool × Calls :=
  match envCoversCall a g with
  | Except.error e => (Except.error e, noCalls)
  | Except.ok b =>
    if !b then (Except.ok false, noCalls)
    else if a.rect then (Except.ok true, noCalls)
    else
      match relateChecked S a g with
      | (Except.error e, u) => (Except.error e, { noCalls with relate := u })
      | (Except.ok m, u) => (Except.ok m.isCovers, { noCalls with relate := u })

/-- `coveredBy` (source lines 835-837): `return g.covers(this);`. -/
def coveredBy (S : Services) (a g : Geometry) : Except JsErr Bool × Calls :=
  covers S g a

def opINTERSECTION : Nat := 1
def opUNION : Nat := 2
def opDIFFERENCE : Nat := 3
def opSYMDIFFERENCE : Nat := 4

/-- `intersection` (source lines 1080-1107): empty-operand special cases
first (each returns an empty GeometryCollection from this geometry's
factory); the `isGeometryCollection` branch's body is commented out in the
source and has no effect; then both GeometryCollection checks, then the
overlay service. -/
def intersection (S : Services) (a other : Geometry) (fresh : Nat) :
    Except JsErr Geometry × Calls :=
  if a.empty then (Except.ok (createGeometryCollection a.factory fresh), noCalls)
  else if other.empty then (Except.ok (createGeometryCollection a.factory fresh), noCalls)
  else
    match checkNotGeometryCollection a with
    | Except.error e => (Except.error e, noCalls)
    | Except.ok _ =>
      match checkNotGeometryCollection other with
      | Except.error e => (Except.error e, noCalls)
      | Except.ok _ =>
        (Except.ok (S.overlay a other opINTERSECTION), { noCalls with overlay := true })

/-- The binary `union` body (source lines 1123-1137): empty-operand special
cases return a clone of the other operand; then both GeometryCollection
checks, then the overlay service.  This assignment to `prototype.union` is
overwritten later in the file (see `unionDispatched`). -/
def unionBinary (S : Services) (a other : Geometry) (fresh : Nat) :
    Except JsErr Geometry × Calls :=
  if a.empty then (Except.ok (cloneFull other fresh), noCalls)
  else if other.empty then (Except.ok (cloneFull a fresh), noCalls)
  else
    match checkNotGeometryCollection a with
    | Except.error e => (Except.error e, noCalls)
    | Except.ok _ =>
      match checkNotGeometryCollection other with
      | Except.error e => (Except.error e, noCalls)
      | Except.ok _ =>
        (Except.ok (S.overlay a other opUNION), { noCalls with overlay := true })

/-- The unary `union` body (source lines 1221-1223):
`return UnaryUnionOp.union(this);`. -/
def unionUnary (S : Services) (a : Geometry) : Except JsErr Geometry × Calls :=
  (Except.ok (S.unaryUnion a), { noCalls with unaryUnion := true })

/-- The value of `jsts.geom.Geometry.prototype.union` once the whole source
file has executed: the assignment at line 1221 (the unary union) replaces
the binary union assigned at line 1123, and a JS function ignores extra
arguments, so `a.union(other)` executes the unary body and ignores
`other`. -/
def unionDispatched (S : Services) (a : Geometry) (_other : Geometry) :
    Except JsErr Geometry × Calls :=
  unionUnary S a

/-- `difference` (source lines 1155-1170), faithfully: empty-operand
special cases first; then `this.heckNotGeometryCollection(this);` — the
property `heckNotGeometryCollection` (note the missing `c`) is undefined on
the object, so the call raises a TypeError; the following
`checkNotGeometryCollection(other)` and the overlay call are unreachable. -/
def difference (S : Services) (a other : Geometry) (fresh : Nat) :
    Except JsErr Geometry × Calls :=
  if a.empty then (Except.ok (createGeometryCollection a.factory fresh), noCalls)
  else if other.empty then (Except.ok (cloneFull a fresh), noCalls)
  else
    (Except.error (JsErr.typeError "this.heckNotGeometryCollection is not a function"),
      noCalls)

/-- `symDifference` (source lines 1189-1201): empty-operand special cases
return a clone of the other operand; then both GeometryCollection checks,
then the overlay service. -/
def symDifference (S : Services) (a other : Geometry) (fresh : Nat) :
    Except JsErr Geometry × Calls :=
  if a.empty then (Except.ok (cloneFull other fresh), noCalls)
  else if other.empty then (Except.ok (cloneFull a fresh), noCalls)
  else
    match checkNotGeometryCollection a with
    | Except.error e => (Except.error e, noCalls)
    | Except.ok _ =>
      match checkNotGeometryCollection other with
      | Except.error e => (Except.error e, noCalls)
      | Except.ok _ =>
        (Except.ok (S.overlay a other opSYMDIFFERENCE), { noCalls with overlay := true })

/-- `compareTo` (source lines 1364-1378, the assignment that survives the
one-argument form at line 1314; both have the same shape), faithfully:
compare the class sort indices, then emptiness, then
`return this.compareToSameClass(o, comp);` — the identifier `o` is bound
nowhere (the parameter is named `other`), so the equal-kind
both-non-empty case raises a ReferenceError. -/
def compareToCode (a other : Geometry) : Except JsErr Int :=
  if classSortIndex a.kind ≠ classSortIndex other.kind then
    Except.ok (classSortIndex a.kind - classSortIndex other.kind)
  else if a.empty && other.empty then Except.ok 0
  else if a.empty then Except.ok (-1)
  else if other.empty then Except.ok 1
  else Except.error (JsErr.referenceError "o")


/-! ### Concrete fixtures used by counterexamples and witnesses -/

def f0 : GeometryFactory := ⟨0, 4326⟩

/-- A non-empty Point at (0,0). -/
def ptOrigin : Geometry :=
  { oid := 1, kind := .point, empty := false, dim := 0
    coords := [⟨0, 0⟩], rect := false
    env := some ⟨0, 0, 0, 0⟩, envelope := none, factory := f0, SRID := 4326 }

/-- A non-empty Point at (5,5). -/
def ptFive : Geometry :=
  { oid := 2, kind := .point, empty := false, dim := 0
    coords := [⟨5, 5⟩], rect := false
    env := some ⟨5, 5, 5, 5⟩, envelope := none, factory := f0, SRID := 4326 }

/-- An empty Point. -/
def emptyPointG : Geometry :=
  { oid := 3, kind := .point, empty := true, dim := 0
    coords := [], rect := false
    env := none, envelope := none, factory := f0, SRID := 4326 }

/-- An empty LineString. -/
def emptyLineG : Geometry :=
  { oid := 4, kind := .lineString, empty := true, dim := 1
    coords := [], rect := false
    env := none, envelope := none, factory := f0, SRID := 4326 }

/-- A non-empty GeometryCollection over the unit square. -/
def gcA : Geometry :=
  { oid := 5, kind := .geometryCollection, empty := false, dim := 0
    coords := [⟨0, 0⟩], rect := false
    env := some ⟨0, 1, 0, 1⟩, envelope := none, factory := f0, SRID := 4326 }

/-- A second non-empty GeometryCollection over the unit square. -/
def gcB : Geometry :=
  { oid := 6, kind := .geometryCollection, empty := false, dim := 0
    coords := [⟨1, 1⟩], rect := false
    env := some ⟨0, 1, 0, 1⟩, envelope := none, factory := f0, SRID := 4326 }

/-- An axis-aligned rectangle Polygon [(0,0),(10,0),(10,10),(0,10),(0,0)]. -/
def rectTen : Geometry :=
  { oid := 7, kind := .polygon, empty := false, dim := 2
    coords := [⟨0, 0⟩, ⟨10, 0⟩, ⟨10, 10⟩, ⟨0, 10⟩, ⟨0, 0⟩], rect := true
    env := some ⟨0, 10, 0, 10⟩, envelope := none, factory := f0, SRID := 4326 }

/-- A MultiPolygon standing in for an external service's output. -/
def resultGeom : Geometry :=
  { oid := 100, kind := .multiPolygon, empty := false, dim := 2
    coords := [⟨0, 0⟩, ⟨3, 0⟩, ⟨3, 3⟩, ⟨0, 3⟩, ⟨0, 0⟩], rect := false
    env := some ⟨0, 3, 0, 3⟩, envelope := none, factory := f0, SRID := 4326 }

/-- A DE-9IM matrix answering true to every query. -/
def imAll : IntersectionMatrix :=
  { isIntersects := true, isContains := true, isCovers := true
    isTouches := fun _ _ => true, isCrosses := fun _ _ => true
    isOverlaps := fun _ _ => true, isEquals := fun _ _ => true }

/-- A concrete service assembly: every relate query answers `imAll`, both
rectangle evaluators answer true, and the overlay and unary-union services
answer `resultGeom`. -/
def S1 : Services :=
  { relate := fun _ _ => imAll
    overlay := fun _ _ _ => resultGeom
    unaryUnion := fun _ => resultGeom
    rectangleIntersects := fun _ _ => true
    rectangleContains := fun _ _ => true }

/-! ### Theorems settling the claims -/

/-- C1: for a non-empty operand and an empty operand, `a.union(e)` does not
return a duplicate of `a`: the assignment of the unary union to
`prototype.union` (line 1221) shadows the binary union (line 1123), so the
call delegates to the unary-union service and ignores the second operand
(the result here is even of a different variant kind than `a`).  The
shadowed binary body, and `symDifference` in both operand orders, do return
a duplicate of the non-empty operand without touching the overlay
service. -/
theorem union_empty_operand_shadowed :
    unionDispatched S1 ptOrigin emptyPointG
      = (Except.ok resultGeom, { noCalls with unaryUnion := true })
    ∧ resultGeom.kind ≠ ptOrigin.kind
    ∧ (unionBinary S1 ptOrigin emptyPointG 7).1 = Except.ok (cloneFull ptOrigin 7)
    ∧ symDifference S1 ptOrigin emptyPointG 7 = (Except.ok (cloneFull ptOrigin 7), noCalls)
    ∧ symDifference S1 emptyPointG ptOrigin 7 = (Except.ok (cloneFull ptOrigin 7), noCalls) :=
  ⟨rfl, by decide, rfl, rfl, rfl⟩

/-- C2: `getEnvelopeInternal` never returns the cached envelope: after
filling the cache slot it evaluates the unbound identifier `envelope`
(line 516; the field is `this.envelope`), raising a ReferenceError — on the
first call and on every subsequent call alike. -/
theorem getEnvelopeInternal_unbound_identifier :
    getEnvelopeInternal ptOrigin
      = (Except.error (JsErr.referenceError "envelope"),
         { ptOrigin with envelope := ptOrigin.env })
    ∧ getEnvelopeInternal { ptOrigin with envelope := ptOrigin.env }
      = (Except.error (JsErr.referenceError "envelope"),
         { ptOrigin with envelope := ptOrigin.env }) :=
  ⟨rfl, rfl⟩

/-- C3: with a non-empty GeometryCollection operand, `union` raises no
precondition failure — the shadowing unary union delegates straight to
`UnaryUnionOp` — and `difference` on any two non-empty operands (even with
no GeometryCollection involved) raises a TypeError from the misspelled
`heckNotGeometryCollection` instead of the precondition check;
`intersection` and `symDifference` do reject GeometryCollection operands
with the precondition error before any overlay delegation. -/
theorem overlay_gc_rejection_divergence :
    (unionDispatched S1 gcA ptOrigin).1 = Except.ok (S1.unaryUnion gcA)
    ∧ (difference S1 ptOrigin ptFive 9).1
        = Except.error (JsErr.typeError "this.heckNotGeometryCollection is not a function")
    ∧ (intersection S1 gcA ptOrigin 9).1
        = Except.error (JsErr.error "This method does not support GeometryCollection")
    ∧ (intersection S1 ptOrigin gcA 9).1
        = Except.error (JsErr.error "This method does not support GeometryCollection")
    ∧ (symDifference S1 gcA ptOrigin 9).1
        = Except.error (JsErr.error "This method does not support GeometryCollection") :=
  ⟨rfl, rfl, rfl, rfl, rfl⟩

/-- C4 counterexample: with both operands empty, `a.difference(e)` returns
an empty GeometryCollection — not a duplicate of `a` (the result's variant
kind differs from `a`'s), because the left-empty special case is evaluated
first. -/
theorem difference_both_empty_cex :
    (difference S1 emptyLineG emptyPointG 9).1
      = Except.ok (createGeometryCollection f0 9)
    ∧ (createGeometryCollection f0 9).kind ≠ emptyLineG.kind :=
  ⟨rfl, by decide⟩

/-- C4 (amended): `intersection` with either operand empty returns an empty
GeometryCollection from the receiver's factory; `difference` with an empty
receiver returns an empty GeometryCollection, and with a non-empty receiver
and empty argument returns a duplicate of the receiver — in every case with
no external service invoked. -/
theorem intersection_difference_empty_cases (S : Services) (a b : Geometry) (fresh : Nat) :
    ((a.empty = true ∨ b.empty = true) →
      intersection S a b fresh
        = (Except.ok (createGeometryCollection a.factory fresh), noCalls))
    ∧ (a.empty = true →
      difference S a b fresh
        = (Except.ok (createGeometryCollection a.factory fresh), noCalls))
    ∧ (a.empty = false → b.empty = true →
      difference S a b fresh = (Except.ok (cloneFull a fresh), noCalls)) := by
  refine ⟨?_, ?_, ?_⟩
  · rintro (h | h)
    · simp [intersection, h]
    · cases ha : a.empty <;> simp [intersection, h, ha]
  · intro h
    simp [difference, h]
  · intro ha hb
    simp [difference, ha, hb]

/-- C4 witness: the empty-operand cases evaluated at a non-empty Point and
an empty Point. -/
theorem intersection_difference_empty_cases_witness :
    ptOrigin.empty = false ∧ emptyPointG.empty = true
    ∧ difference S1 ptOrigin emptyPointG 9 = (Except.ok (cloneFull ptOrigin 9), noCalls)
    ∧ intersection S1 ptOrigin emptyPointG 9
        = (Except.ok (createGeometryCollection ptOrigin.factory 9), noCalls) :=
  ⟨rfl, rfl,
    (intersection_difference_empty_cases S1 ptOrigin emptyPointG 9).2.2 rfl rfl,
    (intersection_difference_empty_cases S1 ptOrigin emptyPointG 9).1 (Or.inr rfl)⟩

/-- C5: the rectangle fast paths are unreachable: `intersects`, `contains`
and `covers` each begin with an envelope short-circuit whose first
`getEnvelopeInternal()` call raises a ReferenceError on every input
(line 516), so for all operands — rectangle or not — the predicates throw
before the rectangle dispatch and invoke no external service, instead of
returning the general DE-9IM-derived result the claim demands. -/
theorem rectangle_fast_path_unreachable (S : Services) (a g : Geometry) :
    intersects S a g = (Except.error (JsErr.referenceError "envelope"), noCalls)
    ∧ contains S a g = (Except.error (JsErr.referenceError "envelope"), noCalls)
    ∧ covers S a g = (Except.error (JsErr.referenceError "envelope"), noCalls) :=
  ⟨rfl, rfl, rfl⟩

/-- C6: on two non-empty geometries of the same variant kind, `compareTo`
does not delegate to `compareToSameClass`: its last line reads the unbound
identifier `o` (the parameter is named `other`, line 1378), raising a
ReferenceError, so no ordering — let alone a total one — is produced.  The
kind-index and emptiness branches behave as documented. -/
theorem compareTo_unbound_identifier :
    compareToCode ptOrigin ptFive = Except.error (JsErr.referenceError "o")
    ∧ compareToCode ptOrigin emptyPointG = Except.ok 1
    ∧ compareToCode emptyPointG ptOrigin = Except.ok (-1)
    ∧ compareToCode emptyPointG emptyPointG = Except.ok 0
    ∧ compareToCode ptOrigin rectTen
        = Except.ok (classSortIndex GeomKind.point - classSortIndex GeomKind.polygon) :=
  ⟨rfl, rfl, rfl, rfl, rfl⟩

/-- C7: `within` is exactly the converse `contains` call and `coveredBy` is
exactly the converse `covers` call — same value, same exception behaviour,
same external-service usage. -/
theorem within_coveredBy_converse (S : Services) (a g : Geometry) :
    within S a g = contains S g a ∧ coveredBy S a g = covers S g a :=
  ⟨rfl, rfl⟩

/-- C8: `disjoint` returns exactly the boolean negation of `intersects`
(propagating its exception) and invokes exactly the services `intersects`
invokes. -/
theorem disjoint_negation_of_intersects (S : Services) (a g : Geometry) :
    (disjoint S a g).1 = (intersects S a g).1.map (fun b => !b)
    ∧ (disjoint S a g).2 = (intersects S a g).2 :=
  ⟨rfl, rfl⟩

/-- C9: `touches`, `crosses` and `overlaps` never produce their envelope
short-circuit result, let alone a relate-produced matrix query: the first
`getEnvelopeInternal()` call of each predicate's envelope test (lines 570,
656, 756) raises a ReferenceError on every input because of the line-516
slip, so each predicate throws on all operands — envelope-disjoint or not —
and invokes no external service. -/
theorem touches_crosses_overlaps_throw (S : Services) (a b : Geometry) :
    touches S a b = (Except.error (JsErr.referenceError "envelope"), noCalls)
    ∧ crosses S a b = (Except.error (JsErr.referenceError "envelope"), noCalls)
    ∧ overlaps S a b = (Except.error (JsErr.referenceError "envelope"), noCalls) :=
  ⟨rfl, rfl, rfl⟩

/-- C10: the base `clone` shares the source's factory object (the very same
reference, not a copy), re-reads its SRID from that factory, carries the
requested fresh object identity, and always has a null envelope cache slot
— the body's guard reads the fresh object's own (null) slot, so the
source's cached envelope is never copied nor aliased. -/
theorem cloneBase_factory_srid_envelope (g : Geometry) (fresh : Nat) :
    (cloneBase g fresh).factory = g.factory
    ∧ (cloneBase g fresh).SRID = g.factory.SRID
    ∧ (cloneBase g fresh).envelope = none
    ∧ (cloneBase g fresh).oid = fresh := by
  simp [cloneBase, mkGeometry]

end Jsts
